import Mathlib

/-!
Verification of the job-orchestration core of the WorldQuant alpha research
repository: a shallow embedding of `RequestRateLimiter`, `WQSession.request_with_retry`,
the per-job pipeline `WQSimulation._process_simulation` (submit, monitor, record),
and the ledger update `WQSimulation.update_tracker_with_results`, together with
theorems settling the spec claims about them.

Time is modelled by a simulated clock (natural-number seconds); every blocking
`time.sleep` advances the clock.  Lock-guarded critical sections are modelled as
atomic steps; concurrent executions of a section guarded by one lock are
modelled as its sequential compositions.  Outcomes of external HTTP calls are
supplied by oracles (one outcome per call made).
-/

/-! ## Rate limiter (`wq_session_core.RequestRateLimiter`) -/

/-- State of `RequestRateLimiter`: a minimum interval and the shared
last-granted-call timestamp (`last_call`, initially 0 in the source). -/
structure RequestRateLimiter where
  min_interval : Nat
  last_call : Nat
deriving DecidableEq

/-- `RequestRateLimiter.wait` at simulated time `now`: sleeps until
`min_interval` has elapsed since `last_call`, then re-reads the clock and
stores it as the new `last_call`.  Returns the grant time and updated state.
The whole body runs under the limiter's lock, so it is one atomic step. -/
def RequestRateLimiter.wait (rl : RequestRateLimiter) (now : Nat) :
    Nat × RequestRateLimiter :=
  let elapsed := now - rl.last_call
  let t := if elapsed < rl.min_interval then now + (rl.min_interval - elapsed) else now
  (t, { rl with last_call := t })

/-- A trace of `wait` calls: `ds` lists the idle delay before each call.
Returns the list of grant times, the final clock and the final limiter state. -/
def rate_limiter_trace (rl : RequestRateLimiter) (clock : Nat) :
    List Nat → List Nat × Nat × RequestRateLimiter
  | [] => ([], clock, rl)
  | d :: ds =>
    let now := clock + d
    let (g, rl') := rl.wait now
    let (gs, c', rl'') := rate_limiter_trace rl' g ds
    (g :: gs, c', rl'')

/-! ### Rate limiter lemmas -/

theorem wait_grant_lower (rl : RequestRateLimiter) (now : Nat)
    (h : rl.last_call ≤ now) :
    rl.last_call + rl.min_interval ≤ (rl.wait now).1 := by
  simp only [RequestRateLimiter.wait]
  split <;> omega

theorem wait_grant_ge_now (rl : RequestRateLimiter) (now : Nat) :
    now ≤ (rl.wait now).1 := by
  simp only [RequestRateLimiter.wait]
  split <;> omega

theorem wait_sets_last_call (rl : RequestRateLimiter) (now : Nat) :
    (rl.wait now).2.last_call = (rl.wait now).1 := rfl

theorem wait_min_interval (rl : RequestRateLimiter) (now : Nat) :
    (rl.wait now).2.min_interval = rl.min_interval := rfl

/-- C6: for any trace of `wait()` calls (arbitrary idle delays between
callers) starting from a limiter state not ahead of the clock, consecutive
grant times are separated by at least `min_interval`; the first grant is at
least `min_interval` after the stored `last_call`; and the shared `last_call`
timestamp always equals the latest grant (it is advanced by the atomic,
lock-guarded `wait` step at each grant). -/
theorem rate_limiter_trace_spec :
    ∀ (ds : List Nat) (rl : RequestRateLimiter) (clock : Nat),
    rl.last_call ≤ clock →
    List.Chain' (fun a b => a + rl.min_interval ≤ b) (rate_limiter_trace rl clock ds).1 ∧
    (∀ g ∈ (rate_limiter_trace rl clock ds).1.head?, rl.last_call + rl.min_interval ≤ g) ∧
    (rate_limiter_trace rl clock ds).2.2.last_call =
      (rate_limiter_trace rl clock ds).1.getLastD rl.last_call ∧
    (rate_limiter_trace rl clock ds).2.2.min_interval = rl.min_interval := by
  intro ds
  induction ds with
  | nil => intro rl clock h; simp [rate_limiter_trace]
  | cons d ds ih =>
    intro rl clock h
    simp only [rate_limiter_trace]
    have hg : rl.last_call + rl.min_interval ≤ (rl.wait (clock + d)).1 :=
      wait_grant_lower rl (clock + d) (by omega)
    have hlast : (rl.wait (clock + d)).2.last_call = (rl.wait (clock + d)).1 :=
      wait_sets_last_call rl (clock + d)
    have hmin : (rl.wait (clock + d)).2.min_interval = rl.min_interval :=
      wait_min_interval rl (clock + d)
    have ihx := ih (rl.wait (clock + d)).2 (rl.wait (clock + d)).1 (le_of_eq hlast)
    obtain ⟨ih1, ih2, ih3, ih4⟩ := ihx
    refine ⟨?_, ?_, ?_, ?_⟩
    · refine List.chain'_cons'.2 ⟨?_, ?_⟩
      · intro b hb
        have := ih2 b hb
        rw [hlast, hmin] at this
        omega
      · rw [hmin] at ih1
        exact ih1
    · intro g hgm
      simp only [List.head?_cons, Option.mem_def, Option.some.injEq] at hgm
      omega
    · rw [List.getLastD_cons, ih3, hlast]
    · rw [ih4, hmin]

/-- The limiter as constructed in `WQSession.__init__` (interval 5, `last_call` 0),
used as a concrete instance in witnesses. -/
def demoRateLimiter : RequestRateLimiter := { min_interval := 5, last_call := 0 }

/-- C6 witness: instantiating the spacing theorem on the source's limiter
(interval 5, `last_call` 0) and a concrete trace of three calls arriving after
idle delays 0, 1 and 7 seconds; the grants 5, 10, 17 are spaced ≥ 5 apart. -/
theorem rate_limiter_trace_spec_witness :
    demoRateLimiter.last_call ≤ 0 ∧
    List.Chain' (fun a b => a + demoRateLimiter.min_interval ≤ b)
      (rate_limiter_trace demoRateLimiter 0 [0, 1, 7]).1 :=
  ⟨by decide, (rate_limiter_trace_spec [0, 1, 7] demoRateLimiter 0 (by decide)).1⟩

/-! ## Resilient transport (`WQSession.request_with_retry`)

The identical method appears in `wq_session_core.py` and `wq_simulation.py`;
one embedding covers both.  HTTP outcomes are delivered by an oracle indexed by
the number of calls made so far; `CallOutcome.exn` is `method(url)` raising. -/

/-- The parts of an HTTP response that `request_with_retry` inspects: the status
code, whether the `Content-Type` is json, and whether the json body's `detail`
field mentions `credentials` (false also covers non-json / unparsable bodies). -/
structure HttpResponse where
  status : Nat
  contentTypeJson : Bool
  detailCredentials : Bool
deriving DecidableEq

/-- Outcome of one invocation of the request method. -/
inductive CallOutcome
  | exn
  | resp (r : HttpResponse)
deriving DecidableEq

/-- Which `time.sleep` site produced a sleep event. -/
inductive SleepKind
  | cooldownPre
  | throttleFull
  | throttleRemainder
  | backoff
deriving DecidableEq

/-- The mutable session state shared by every caller of the transport:
simulated clock, `login_expired` flag, last-429 timestamp, cooldown length,
the shared rate limiter, plus instrumentation (number of `login()` calls,
number of HTTP calls, log of sleeps). -/
structure SessionState where
  clock : Nat
  login_expired : Bool
  last_429_time : Nat
  cooldown_seconds : Nat
  rate_limiter : RequestRateLimiter
  loginCount : Nat
  calls : Nat
  sleeps : List (SleepKind × Nat)
deriving DecidableEq

/-- `time.sleep(d)` at sleep site `k`: advances the clock and logs the event. -/
def sessionSleep (s : SessionState) (k : SleepKind) (d : Nat) : SessionState :=
  { s with clock := s.clock + d, sleeps := s.sleeps ++ [(k, d)] }

/-- Step 1 of each attempt: under `rate_limit_lock`, if a 429 cooldown window is
still active, sleep out the remainder (`cooldown_left`). -/
def precheck_cooldown (s : SessionState) : SessionState :=
  let cooldown_left : Int :=
    (s.cooldown_seconds : Int) - ((s.clock : Int) - (s.last_429_time : Int))
  if 0 < cooldown_left then sessionSleep s SleepKind.cooldownPre cooldown_left.toNat else s

/-- The 429 branch, run under `rate_limit_lock`: the observer of an expired
window sets `last_429_time` to now and sleeps the full cooldown; an observer of
an active window sleeps only the remainder.  Afterwards the loop continues. -/
def handle_429 (s : SessionState) : SessionState :=
  if (s.cooldown_seconds : Int) ≤ (s.clock : Int) - (s.last_429_time : Int) then
    sessionSleep { s with last_429_time := s.clock } SleepKind.throttleFull s.cooldown_seconds
  else
    sessionSleep s SleepKind.throttleRemainder
      ((s.cooldown_seconds : Int) - ((s.clock : Int) - (s.last_429_time : Int))).toNat

/-- Classification of an auth failure (run after the 429 and 400 branches):
status 401/403, or otherwise a json body whose `detail` mentions credentials. -/
def is_auth_error (r : HttpResponse) : Bool :=
  if r.status = 401 ∨ r.status = 403 then true
  else if r.contentTypeJson then r.detailCredentials
  else false

/-- The auth-recovery critical section, guarded by `login_lock`: a caller seeing
`login_expired` unset sets it, calls `login()` (result from `loginOracle` at the
current login count; the flag is cleared again on success) and continues; a
caller seeing the flag already set abandons the call.  Returns the new state and
whether the retry loop continues (`false` = the call returns `None`). -/
def login_section (s : SessionState) (loginOracle : Nat → Bool) :
    SessionState × Bool :=
  if s.login_expired then (s, false)
  else
    let ok := loginOracle s.loginCount
    let s' := { s with login_expired := true, loginCount := s.loginCount + 1 }
    if ok then ({ s' with login_expired := false }, true)
    else (s', false)

/-- `self.rate_limiter.wait()` as seen from the session: advances the clock to
the grant time and updates the shared limiter. -/
def session_rl_wait (s : SessionState) : SessionState :=
  let (t, rl') := s.rate_limiter.wait s.clock
  { s with clock := t, rate_limiter := rl' }

/-- Body of `request_with_retry`'s `for attempt in range(1, max_attempts + 1)`
loop.  `fuel` is the number of loop iterations left (`fuel = 0` is the loop
falling through to the final `return None`); `attempt` is the 1-based counter.
Each iteration: cooldown pre-check, rate-limiter wait, one HTTP call, then
classification — 429 → cooldown handling and `continue`; 400 → `None`;
auth error → `login_section` (continue or `None`); exception → `None` on the
last attempt, else backoff sleep `min(2 ^ attempt, 30)` and retry;
otherwise the response is returned. -/
def request_with_retry_aux (oracle : Nat → CallOutcome) (loginOracle : Nat → Bool) :
    Nat → Nat → SessionState → Option HttpResponse × SessionState
  | 0, _, s => (none, s)
  | fuel + 1, attempt, s =>
    let s1 := precheck_cooldown s
    let s2 := session_rl_wait s1
    match oracle s2.calls with
    | CallOutcome.exn =>
      let s3 := { s2 with calls := s2.calls + 1 }
      if fuel = 0 then (none, s3)
      else
        let s4 := sessionSleep s3 SleepKind.backoff (min (2 ^ attempt) 30)
        request_with_retry_aux oracle loginOracle fuel (attempt + 1) s4
    | CallOutcome.resp r =>
      let s3 := { s2 with calls := s2.calls + 1 }
      if r.status = 429 then
        request_with_retry_aux oracle loginOracle fuel (attempt + 1) (handle_429 s3)
      else if r.status = 400 then (none, s3)
      else if is_auth_error r then
        match login_section s3 loginOracle with
        | (s4, true) => request_with_retry_aux oracle loginOracle fuel (attempt + 1) s4
        | (s4, false) => (none, s4)
      else (some r, s3)

/-- `request_with_retry(method, url, max_attempts)`: run the attempt loop from
attempt 1 with `max_attempts` iterations of budget. -/
def request_with_retry (oracle : Nat → CallOutcome) (loginOracle : Nat → Bool)
    (max_attempts : Nat) (s : SessionState) : Option HttpResponse × SessionState :=
  request_with_retry_aux oracle loginOracle max_attempts 1 s

/-- The `max_attempts=3` default of `request_with_retry`. -/
def default_max_attempts : Nat := 3

/-- The recursive `new_get`/`new_post` wrappers installed by `WQSession.__init__`
around the raw HTTP operation: on any exception they call themselves again,
without any attempt bound.  `fuel` bounds the modelled recursion depth (the
source has no such bound); the second component counts raw attempts made.
Returning `none` means the wrapper still had not produced a response within
`fuel` raw attempts. -/
def new_get (oracle : Nat → Except Unit HttpResponse) :
    Nat → Nat → Option HttpResponse × Nat
  | 0, i => (none, i)
  | fuel + 1, i =>
    match oracle i with
    | Except.ok r => (some r, i + 1)
    | Except.error _ => new_get oracle fuel (i + 1)

/-- Two workers that have both classified their responses as auth failures and
contend for `login_lock`: the lock serializes them, so the concurrent execution
is the sequential composition of the two critical sections. -/
def two_worker_login (s : SessionState) (loginOracle : Nat → Bool) :
    SessionState × Bool × Bool :=
  let (s1, c1) := login_section s loginOracle
  let (s2, c2) := login_section s1 loginOracle
  (s2, c1, c2)

/-! ### Concrete transport instances -/

/-- A throttled response. -/
def resp429 : HttpResponse := { status := 429, contentTypeJson := false, detailCredentials := false }

/-- An oracle answering every HTTP call with a 429. -/
def all429 : Nat → CallOutcome := fun _ => CallOutcome.resp resp429

/-- An oracle on which every HTTP call raises. -/
def allExn : Nat → CallOutcome := fun _ => CallOutcome.exn

/-- A `login()` oracle that always succeeds (the source's `login` always
returns `True`). -/
def loginAlwaysOk : Nat → Bool := fun _ => true

/-- A fresh session as built by `WQSession.__init__` (flag unset, no 429 seen,
cooldown 60s, limiter interval 5s), at simulated epoch 1000. -/
def initSession : SessionState :=
  { clock := 1000, login_expired := false, last_429_time := 0, cooldown_seconds := 60,
    rate_limiter := demoRateLimiter, loginCount := 0, calls := 0, sleeps := [] }

/-! ### Transport state lemmas -/

theorem precheck_cooldown_calls (s : SessionState) :
    (precheck_cooldown s).calls = s.calls := by
  simp only [precheck_cooldown]
  split <;> rfl

theorem precheck_cooldown_sleeps_le (s : SessionState) :
    s.sleeps.length ≤ (precheck_cooldown s).sleeps.length := by
  simp only [precheck_cooldown]
  split <;> simp [sessionSleep]

theorem precheck_cooldown_noop (s : SessionState)
    (h : s.last_429_time + s.cooldown_seconds ≤ s.clock) :
    precheck_cooldown s = s := by
  unfold precheck_cooldown
  rw [if_neg]
  omega

theorem session_rl_wait_calls (s : SessionState) :
    (session_rl_wait s).calls = s.calls := rfl

theorem session_rl_wait_sleeps (s : SessionState) :
    (session_rl_wait s).sleeps = s.sleeps := rfl

theorem session_rl_wait_clock_ge (s : SessionState) :
    s.clock ≤ (session_rl_wait s).clock :=
  wait_grant_ge_now s.rate_limiter s.clock

theorem session_rl_wait_last_429 (s : SessionState) :
    (session_rl_wait s).last_429_time = s.last_429_time := rfl

theorem session_rl_wait_cooldown (s : SessionState) :
    (session_rl_wait s).cooldown_seconds = s.cooldown_seconds := rfl

theorem handle_429_calls (s : SessionState) :
    (handle_429 s).calls = s.calls := by
  unfold handle_429
  split <;> rfl

theorem handle_429_sleeps_length (s : SessionState) :
    (handle_429 s).sleeps.length = s.sleeps.length + 1 := by
  unfold handle_429
  split <;> simp [sessionSleep]

theorem login_section_calls (s : SessionState) (lo : Nat → Bool) :
    (login_section s lo).1.calls = s.calls := by
  simp only [login_section]
  split
  · rfl
  · split <;> rfl

/-! ### C2: behaviour of the retry loop under an unbroken run of 429s -/

theorem rwr_aux_429_step (oracle : Nat → CallOutcome) (lo : Nat → Bool)
    (fuel attempt : Nat) (s : SessionState) (r : HttpResponse)
    (hr : oracle (session_rl_wait (precheck_cooldown s)).calls = CallOutcome.resp r)
    (h429 : r.status = 429) :
    request_with_retry_aux oracle lo (fuel + 1) attempt s =
      request_with_retry_aux oracle lo fuel (attempt + 1)
        (handle_429 { session_rl_wait (precheck_cooldown s) with
                      calls := (session_rl_wait (precheck_cooldown s)).calls + 1 }) := by
  simp only [request_with_retry_aux, hr, h429, if_pos]

theorem all429_run_aux (oracle : Nat → CallOutcome) (lo : Nat → Bool)
    (h : ∀ n, ∃ r, oracle n = CallOutcome.resp r ∧ r.status = 429) :
    ∀ (fuel attempt : Nat) (s : SessionState),
    (request_with_retry_aux oracle lo fuel attempt s).1 = none ∧
    (request_with_retry_aux oracle lo fuel attempt s).2.calls = s.calls + fuel ∧
    s.sleeps.length + fuel ≤ (request_with_retry_aux oracle lo fuel attempt s).2.sleeps.length := by
  intro fuel
  induction fuel with
  | zero => intro attempt s; simp [request_with_retry_aux]
  | succ fuel ih =>
    intro attempt s
    obtain ⟨r, hr, hr429⟩ := h (session_rl_wait (precheck_cooldown s)).calls
    rw [rwr_aux_429_step oracle lo fuel attempt s r hr hr429]
    have hc : (session_rl_wait (precheck_cooldown s)).calls = s.calls :=
      (session_rl_wait_calls _).trans (precheck_cooldown_calls s)
    have hs : s.sleeps.length ≤ (session_rl_wait (precheck_cooldown s)).sleeps.length := by
      rw [session_rl_wait_sleeps]
      exact precheck_cooldown_sleeps_le s
    obtain ⟨ih1, ih2, ih3⟩ := ih (attempt + 1)
      (handle_429 { session_rl_wait (precheck_cooldown s) with
                    calls := (session_rl_wait (precheck_cooldown s)).calls + 1 })
    have hcalls : (handle_429 { session_rl_wait (precheck_cooldown s) with
        calls := (session_rl_wait (precheck_cooldown s)).calls + 1 }).calls =
        (session_rl_wait (precheck_cooldown s)).calls + 1 := handle_429_calls _
    have hslen : (handle_429 { session_rl_wait (precheck_cooldown s) with
        calls := (session_rl_wait (precheck_cooldown s)).calls + 1 }).sleeps.length =
        (session_rl_wait (precheck_cooldown s)).sleeps.length + 1 := by
      rw [handle_429_sleeps_length]
    exact ⟨ih1, by omega, by omega⟩

/-- C2 counterexample: with the default budget of 3 attempts and every response
a 429, `request_with_retry` exhausts its budget after 3 calls and returns
failure (`None`) — so a throttled retry does consume an attempt, and an
unbroken run of 429s does make the call return failure. -/
theorem throttle_retry_exhausts_budget_counterexample :
    (request_with_retry all429 loginAlwaysOk 3 initSession).1 = none ∧
    (request_with_retry all429 loginAlwaysOk 3 initSession).2.calls = 3 := by
  decide

/-- C2 (amended): a 429 response triggers the cooldown handling (a sleep is
logged for each throttled attempt) and the loop retries, but that retry
consumes an attempt exactly like an exception does: for every session state and
every oracle answering each call with a 429, `request_with_retry` with budget
`max_attempts` makes exactly `max_attempts` calls, sleeps at least once per
attempt, and returns `None`. -/
theorem throttle_retry_consumes_attempts :
    ∀ (oracle : Nat → CallOutcome) (lo : Nat → Bool) (max_attempts : Nat) (s : SessionState),
    (∀ n, ∃ r, oracle n = CallOutcome.resp r ∧ r.status = 429) →
    (request_with_retry oracle lo max_attempts s).1 = none ∧
    (request_with_retry oracle lo max_attempts s).2.calls = s.calls + max_attempts ∧
    s.sleeps.length + max_attempts ≤
      (request_with_retry oracle lo max_attempts s).2.sleeps.length := by
  intro oracle lo max_attempts s h
  exact all429_run_aux oracle lo h max_attempts 1 s

/-- C2 witness: the amended theorem applied to the all-429 oracle, the default
budget 3 and a fresh session. -/
theorem throttle_retry_consumes_attempts_witness :
    (∀ n, ∃ r, all429 n = CallOutcome.resp r ∧ r.status = 429) ∧
    (request_with_retry all429 loginAlwaysOk 3 initSession).2.calls = 0 + 3 :=
  ⟨fun _ => ⟨resp429, rfl, rfl⟩,
    (throttle_retry_consumes_attempts all429 loginAlwaysOk 3 initSession
      (fun _ => ⟨resp429, rfl, rfl⟩)).2.1⟩

/-! ### C3: single-flight re-authentication -/

/-- C3 counterexample: two workers that detect auth expiry concurrently and
enter `login_lock` in sequence, starting from a fresh session (flag unset) and
with `login()` succeeding (as the source's `login` always returns `True`):
the first worker sets the flag, logs in, and clears the flag again before
releasing the lock, so the second worker also observes the flag unset and
performs `login()` as well — `login()` executes twice, not exactly once. -/
theorem concurrent_relogin_twice_counterexample :
    initSession.loginCount = 0 ∧
    (two_worker_login initSession loginAlwaysOk).1.loginCount = 2 := by
  decide

theorem login_section_flag_set (s : SessionState) (lo : Nat → Bool)
    (h : s.login_expired = true) : login_section s lo = (s, false) := by
  simp [login_section, h]

theorem login_section_flag_unset_ok (s : SessionState) (lo : Nat → Bool)
    (h : s.login_expired = false) (hok : lo s.loginCount = true) :
    login_section s lo =
      ({ s with login_expired := false, loginCount := s.loginCount + 1 }, true) := by
  simp [login_section, h, hok]

theorem login_section_flag_unset_fail (s : SessionState) (lo : Nat → Bool)
    (h : s.login_expired = false) (hbad : lo s.loginCount = false) :
    login_section s lo =
      ({ s with login_expired := true, loginCount := s.loginCount + 1 }, false) := by
  simp [login_section, h, hbad]

/-- C3 (amended): the per-caller behaviour is as claimed — a caller observing
the auth-expired flag unset sets it, performs `login()` (incrementing the login
count), clears the flag on success and continues its retry; a caller observing
the flag already set abandons the call (`None`) without invoking `login()`.
But because a successful first re-login clears the flag inside the critical
section, the second of two concurrently-detecting workers also observes the
flag unset: `login()` executes twice when the first re-login succeeds, and
exactly once only when the first re-login fails (only then does the second
worker observe the flag set and abandon). -/
theorem single_flight_login_amended :
    ∀ (s : SessionState) (lo : Nat → Bool),
    (s.login_expired = true → login_section s lo = (s, false)) ∧
    (s.login_expired = false →
      (login_section s lo).1.loginCount = s.loginCount + 1 ∧
      (lo s.loginCount = true →
        (login_section s lo).2 = true ∧ (login_section s lo).1.login_expired = false) ∧
      (lo s.loginCount = false →
        (login_section s lo).2 = false ∧ (login_section s lo).1.login_expired = true)) ∧
    (s.login_expired = false →
      (lo s.loginCount = true →
        (two_worker_login s lo).1.loginCount = s.loginCount + 2) ∧
      (lo s.loginCount = false →
        (two_worker_login s lo).1.loginCount = s.loginCount + 1 ∧
        (two_worker_login s lo).2.2 = false)) := by
  intro s lo
  refine ⟨login_section_flag_set s lo, ?_, ?_⟩
  · intro h
    cases hok : lo s.loginCount with
    | true =>
      rw [login_section_flag_unset_ok s lo h hok]
      simp
    | false =>
      rw [login_section_flag_unset_fail s lo h hok]
      simp
  · intro h
    constructor
    · intro hok
      simp only [two_worker_login]
      rw [login_section_flag_unset_ok s lo h hok]
      cases h2 : lo (s.loginCount + 1) with
      | true =>
        rw [login_section_flag_unset_ok _ lo rfl h2]
      | false =>
        rw [login_section_flag_unset_fail _ lo rfl h2]
    · intro hbad
      simp only [two_worker_login]
      rw [login_section_flag_unset_fail s lo h hbad,
        login_section_flag_set _ lo rfl]
      exact ⟨rfl, rfl⟩

/-- C3 witness: the amended theorem applied to a fresh session with a
succeeding `login()`: the concurrent pair performs two logins. -/
theorem single_flight_login_amended_witness :
    initSession.login_expired = false ∧
    (two_worker_login initSession loginAlwaysOk).1.loginCount = initSession.loginCount + 2 :=
  ⟨rfl, ((single_flight_login_amended initSession loginAlwaysOk).2.2 rfl).1 rfl⟩

/-! ### C4: transport exceptions, backoff, and the attempt budget -/

theorem rwr_aux_exn_last (oracle : Nat → CallOutcome) (lo : Nat → Bool)
    (attempt : Nat) (s : SessionState)
    (hr : oracle (session_rl_wait (precheck_cooldown s)).calls = CallOutcome.exn) :
    request_with_retry_aux oracle lo 1 attempt s =
      (none, { session_rl_wait (precheck_cooldown s) with
               calls := (session_rl_wait (precheck_cooldown s)).calls + 1 }) := by
  simp only [request_with_retry_aux, hr, if_pos]

theorem rwr_aux_exn_step (oracle : Nat → CallOutcome) (lo : Nat → Bool)
    (fuel attempt : Nat) (s : SessionState)
    (hr : oracle (session_rl_wait (precheck_cooldown s)).calls = CallOutcome.exn) :
    request_with_retry_aux oracle lo (fuel + 2) attempt s =
      request_with_retry_aux oracle lo (fuel + 1) (attempt + 1)
        (sessionSleep { session_rl_wait (precheck_cooldown s) with
                        calls := (session_rl_wait (precheck_cooldown s)).calls + 1 }
          SleepKind.backoff (min (2 ^ attempt) 30)) := by
  simp only [request_with_retry_aux, hr]
  rw [if_neg (by omega)]

theorem sessionSleep_calls (s : SessionState) (k : SleepKind) (d : Nat) :
    (sessionSleep s k d).calls = s.calls := rfl

theorem rwr_aux_400_step (oracle : Nat → CallOutcome) (lo : Nat → Bool)
    (fuel attempt : Nat) (s : SessionState) (r : HttpResponse)
    (hr : oracle (session_rl_wait (precheck_cooldown s)).calls = CallOutcome.resp r)
    (h400 : r.status = 400) :
    request_with_retry_aux oracle lo (fuel + 1) attempt s =
      (none, { session_rl_wait (precheck_cooldown s) with
               calls := (session_rl_wait (precheck_cooldown s)).calls + 1 }) := by
  simp only [request_with_retry_aux, hr]
  rw [if_neg (by rw [h400]; decide), if_pos h400]

theorem rwr_aux_auth_step (oracle : Nat → CallOutcome) (lo : Nat → Bool)
    (fuel attempt : Nat) (s : SessionState) (r : HttpResponse)
    (hr : oracle (session_rl_wait (precheck_cooldown s)).calls = CallOutcome.resp r)
    (h429 : ¬ r.status = 429) (h400 : ¬ r.status = 400)
    (hauth : is_auth_error r = true) :
    request_with_retry_aux oracle lo (fuel + 1) attempt s =
      (match login_section { session_rl_wait (precheck_cooldown s) with
               calls := (session_rl_wait (precheck_cooldown s)).calls + 1 } lo with
       | (s4, true) => request_with_retry_aux oracle lo fuel (attempt + 1) s4
       | (s4, false) => (none, s4)) := by
  simp only [request_with_retry_aux, hr]
  rw [if_neg h429, if_neg h400, if_pos hauth]

theorem rwr_aux_success_step (oracle : Nat → CallOutcome) (lo : Nat → Bool)
    (fuel attempt : Nat) (s : SessionState) (r : HttpResponse)
    (hr : oracle (session_rl_wait (precheck_cooldown s)).calls = CallOutcome.resp r)
    (h429 : ¬ r.status = 429) (h400 : ¬ r.status = 400)
    (hauth : ¬ is_auth_error r = true) :
    request_with_retry_aux oracle lo (fuel + 1) attempt s =
      (some r, { session_rl_wait (precheck_cooldown s) with
                 calls := (session_rl_wait (precheck_cooldown s)).calls + 1 }) := by
  simp only [request_with_retry_aux, hr]
  rw [if_neg h429, if_neg h400, if_neg hauth]

theorem rwr_aux_calls_le (oracle : Nat → CallOutcome) (lo : Nat → Bool) :
    ∀ (fuel attempt : Nat) (s : SessionState),
    (request_with_retry_aux oracle lo fuel attempt s).2.calls ≤ s.calls + fuel := by
  intro fuel
  induction fuel with
  | zero => intro attempt s; simp [request_with_retry_aux]
  | succ fuel ih =>
    intro attempt s
    have hc : (session_rl_wait (precheck_cooldown s)).calls = s.calls :=
      (session_rl_wait_calls _).trans (precheck_cooldown_calls s)
    have hmk : ({ session_rl_wait (precheck_cooldown s) with
        calls := (session_rl_wait (precheck_cooldown s)).calls + 1 } : SessionState).calls =
        (session_rl_wait (precheck_cooldown s)).calls + 1 := rfl
    cases hr : oracle (session_rl_wait (precheck_cooldown s)).calls with
    | exn =>
      cases fuel with
      | zero =>
        rw [rwr_aux_exn_last oracle lo attempt s hr]
        dsimp only
        omega
      | succ k =>
        rw [rwr_aux_exn_step oracle lo k attempt s hr]
        have hsl : (sessionSleep { session_rl_wait (precheck_cooldown s) with
            calls := (session_rl_wait (precheck_cooldown s)).calls + 1 }
            SleepKind.backoff (min (2 ^ attempt) 30)).calls =
            (session_rl_wait (precheck_cooldown s)).calls + 1 := rfl
        have := ih (attempt + 1)
          (sessionSleep { session_rl_wait (precheck_cooldown s) with
            calls := (session_rl_wait (precheck_cooldown s)).calls + 1 }
            SleepKind.backoff (min (2 ^ attempt) 30))
        omega
    | resp r =>
      by_cases h429 : r.status = 429
      · rw [rwr_aux_429_step oracle lo fuel attempt s r hr h429]
        have hh : (handle_429 { session_rl_wait (precheck_cooldown s) with
            calls := (session_rl_wait (precheck_cooldown s)).calls + 1 }).calls =
            (session_rl_wait (precheck_cooldown s)).calls + 1 := handle_429_calls _
        have := ih (attempt + 1)
          (handle_429 { session_rl_wait (precheck_cooldown s) with
            calls := (session_rl_wait (precheck_cooldown s)).calls + 1 })
        omega
      · by_cases h400 : r.status = 400
        · rw [rwr_aux_400_step oracle lo fuel attempt s r hr h400]
          dsimp only
          omega
        · by_cases hauth : is_auth_error r = true
          · rw [rwr_aux_auth_step oracle lo fuel attempt s r hr h429 h400 hauth]
            cases hls : login_section { session_rl_wait (precheck_cooldown s) with
                calls := (session_rl_wait (precheck_cooldown s)).calls + 1 } lo with
            | mk s4 cont =>
              have hlc : s4.calls = (session_rl_wait (precheck_cooldown s)).calls + 1 := by
                have h5 := login_section_calls { session_rl_wait (precheck_cooldown s) with
                  calls := (session_rl_wait (precheck_cooldown s)).calls + 1 } lo
                rw [hls] at h5
                exact h5
              cases cont with
              | true =>
                have := ih (attempt + 1) s4
                dsimp only
                omega
              | false =>
                dsimp only
                omega
          · rw [rwr_aux_success_step oracle lo fuel attempt s r hr h429 h400 hauth]
            dsimp only
            omega

theorem allexn_run_aux (oracle : Nat → CallOutcome) (lo : Nat → Bool)
    (h : ∀ n, oracle n = CallOutcome.exn) :
    ∀ (fuel attempt : Nat) (s : SessionState),
    s.last_429_time + s.cooldown_seconds ≤ s.clock →
    (request_with_retry_aux oracle lo fuel attempt s).1 = none ∧
    (request_with_retry_aux oracle lo fuel attempt s).2.calls = s.calls + fuel ∧
    (request_with_retry_aux oracle lo fuel attempt s).2.sleeps =
      s.sleeps ++ (List.range' attempt (fuel - 1)).map
        (fun a => (SleepKind.backoff, min (2 ^ a) 30)) := by
  intro fuel
  induction fuel with
  | zero => intro attempt s hinv; simp [request_with_retry_aux]
  | succ fuel ih =>
    intro attempt s hinv
    have hpre : precheck_cooldown s = s := precheck_cooldown_noop s hinv
    cases fuel with
    | zero =>
      rw [rwr_aux_exn_last oracle lo attempt s (h _), hpre]
      refine ⟨rfl, ?_, ?_⟩
      · show (session_rl_wait s).calls + 1 = s.calls + 1
        rw [session_rl_wait_calls]
      · show (session_rl_wait s).sleeps =
          s.sleeps ++ (List.range' attempt 0).map
            (fun a => (SleepKind.backoff, min (2 ^ a) 30))
        rw [session_rl_wait_sleeps]
        simp
    | succ k =>
      rw [rwr_aux_exn_step oracle lo k attempt s (h _), hpre]
      have h4c : (sessionSleep { session_rl_wait s with
          calls := (session_rl_wait s).calls + 1 }
          SleepKind.backoff (min (2 ^ attempt) 30)).calls = s.calls + 1 := by
        rw [sessionSleep_calls]
        show (session_rl_wait s).calls + 1 = s.calls + 1
        rw [session_rl_wait_calls]
      have h4s : (sessionSleep { session_rl_wait s with
          calls := (session_rl_wait s).calls + 1 }
          SleepKind.backoff (min (2 ^ attempt) 30)).sleeps =
          s.sleeps ++ [(SleepKind.backoff, min (2 ^ attempt) 30)] := rfl
      have h4inv : (sessionSleep { session_rl_wait s with
          calls := (session_rl_wait s).calls + 1 }
          SleepKind.backoff (min (2 ^ attempt) 30)).last_429_time +
          (sessionSleep { session_rl_wait s with
          calls := (session_rl_wait s).calls + 1 }
          SleepKind.backoff (min (2 ^ attempt) 30)).cooldown_seconds ≤
          (sessionSleep { session_rl_wait s with
          calls := (session_rl_wait s).calls + 1 }
          SleepKind.backoff (min (2 ^ attempt) 30)).clock := by
        show s.last_429_time + s.cooldown_seconds ≤
          (session_rl_wait s).clock + min (2 ^ attempt) 30
        have h4 := session_rl_wait_clock_ge s
        have hpow : 0 < 2 ^ attempt := pow_pos (by norm_num) attempt
        omega
      obtain ⟨ih1, ih2, ih3⟩ := ih (attempt + 1)
        (sessionSleep { session_rl_wait s with
          calls := (session_rl_wait s).calls + 1 }
          SleepKind.backoff (min (2 ^ attempt) 30)) h4inv
      refine ⟨ih1, ?_, ?_⟩
      · rw [ih2, h4c]
        omega
      · rw [ih3, h4s]
        have hr : List.range' attempt (k + 2 - 1) =
            attempt :: List.range' (attempt + 1) (k + 1 - 1) := rfl
        rw [hr]
        simp

/-- C4 counterexample: the method that `request_with_retry` invokes is the
`new_get`/`new_post` wrapper installed by `WQSession.__init__`, which retries
the raw HTTP operation unboundedly on any exception.  With the raw operation
failing on every call, after 10 raw attempts — far beyond the `max_attempts = 3`
budget — the wrapper has still produced no response and keeps retrying, so the
transport call has not terminated within any attempt budget. -/
theorem transport_unbounded_wrapper_counterexample :
    new_get (fun _ => Except.error ()) 10 0 = (none, 10) := by
  decide

/-- C4 (amended): `request_with_retry`'s own loop is bounded and backs off as
described — (1) for every oracle it makes at most `max_attempts` HTTP calls;
(2) if every attempt raises, it sleeps `min(2 ^ attempt, 30)` between
consecutive attempts (attempts `1 … max_attempts - 1`), makes exactly
`max_attempts` calls and returns `None`.  But (3) the wrapped `get`/`post`
installed by `__init__`, which `request_with_retry` actually invokes, retries a
persistently failing raw HTTP operation without bound (no fuel suffices), so
bounded termination holds only for exceptions that reach `request_with_retry`
itself, not when the underlying raw HTTP operation keeps failing. -/
theorem transport_retry_bounded_amended :
    (∀ (oracle : Nat → CallOutcome) (lo : Nat → Bool) (max_attempts : Nat)
       (s : SessionState),
      (request_with_retry oracle lo max_attempts s).2.calls ≤ s.calls + max_attempts) ∧
    (∀ (oracle : Nat → CallOutcome) (lo : Nat → Bool) (max_attempts : Nat)
       (s : SessionState),
      (∀ n, oracle n = CallOutcome.exn) →
      s.last_429_time + s.cooldown_seconds ≤ s.clock →
      (request_with_retry oracle lo max_attempts s).1 = none ∧
      (request_with_retry oracle lo max_attempts s).2.calls = s.calls + max_attempts ∧
      (request_with_retry oracle lo max_attempts s).2.sleeps =
        s.sleeps ++ (List.range' 1 (max_attempts - 1)).map
          (fun a => (SleepKind.backoff, min (2 ^ a) 30))) ∧
    (∀ fuel i, new_get (fun _ => Except.error ()) fuel i = (none, i + fuel)) := by
  refine ⟨?_, ?_, ?_⟩
  · intro oracle lo max_attempts s
    exact rwr_aux_calls_le oracle lo max_attempts 1 s
  · intro oracle lo max_attempts s h hinv
    exact allexn_run_aux oracle lo h max_attempts 1 s hinv
  · intro fuel
    induction fuel with
    | zero => intro i; simp [new_get]
    | succ k ih =>
      intro i
      have harith : i + 1 + k = i + (k + 1) := by omega
      rw [new_get, ih (i + 1), harith]

/-- C4 witness: the amended theorem's all-exceptions clause applied to the
default budget 3 and a fresh session: three calls, backoff sleeps 2 and 4
seconds, and a `None` result. -/
theorem transport_retry_bounded_amended_witness :
    (∀ n, allExn n = CallOutcome.exn) ∧
    initSession.last_429_time + initSession.cooldown_seconds ≤ initSession.clock ∧
    (request_with_retry allExn loginAlwaysOk 3 initSession).1 = none ∧
    (request_with_retry allExn loginAlwaysOk 3 initSession).2.calls = 0 + 3 ∧
    (request_with_retry allExn loginAlwaysOk 3 initSession).2.sleeps =
      [] ++ (List.range' 1 2).map (fun a => (SleepKind.backoff, min (2 ^ a) 30)) :=
  ⟨fun _ => rfl, by decide,
    (transport_retry_bounded_amended.2.1 allExn loginAlwaysOk 3 initSession
      (fun _ => rfl) (by decide)).1,
    (transport_retry_bounded_amended.2.1 allExn loginAlwaysOk 3 initSession
      (fun _ => rfl) (by decide)).2.1,
    (transport_retry_bounded_amended.2.1 allExn loginAlwaysOk 3 initSession
      (fun _ => rfl) (by decide)).2.2⟩

/-! ## Expression-string processing (`_extract_simulation_params` /
`_process_simulation`)

The code column is `simulation['code'].strip()` followed by
`.replace('"', '')`, `.replace("\x5cr", "")` and `.replace("\x5cn", "")`
(the latter two are the literal two-character sequences backslash-r and
backslash-n, not control characters).  Strings are processed as `List Char`. -/

/-- Python `str.strip()`: drop leading and trailing whitespace. -/
def stripStr (s : List Char) : List Char :=
  ((s.dropWhile Char.isWhitespace).reverse.dropWhile Char.isWhitespace).reverse

/-- Python `str.replace(c, '')` for a single character: remove every
occurrence. -/
def removeChar (ch : Char) (s : List Char) : List Char :=
  s.filter (fun c => c ≠ ch)

/-- Python `str.replace(ab, '')` for a two-character pattern: remove
non-overlapping occurrences in one left-to-right pass. -/
def removeSeq2 (a b : Char) : List Char → List Char
  | [] => []
  | [c] => [c]
  | c :: d :: rest =>
    if c = a ∧ d = b then removeSeq2 a b rest
    else c :: removeSeq2 a b (d :: rest)

/-- The expression string actually submitted for a job: the JobSpec's `code`
stripped (in `_extract_simulation_params`), then with every double quote, every
literal backslash-r and every literal backslash-n removed (in
`_process_simulation`), in that order. -/
def processAlphaCode (code : List Char) : List Char :=
  removeSeq2 '\\' 'n' (removeSeq2 '\\' 'r' (removeChar '"' (stripStr code)))

/-! ## Per-job pipeline (`WQSimulation._process_simulation`) -/

/-- A job spec as loaded by `_load_parameters_from_tracker`: the opaque code,
the settings bundle, and the `idea_id` linking the job to its ledger row. -/
structure SimJob where
  code : String
  neutralization : String
  decay : Int
  truncation : Rat
  delay : Int
  «universe» : String
  region : String
  pasteurization : String
  nanHandling : String
  idea_id : String
deriving DecidableEq

/-- The params dict built by `_extract_simulation_params`: code stripped,
neutralization upper-cased, settings copied. -/
structure SimParams where
  code : String
  delay : Int
  «universe» : String
  truncation : Rat
  region : String
  decay : Int
  neutralization : String
  pasteurization : String
  nanHandling : String
deriving DecidableEq

/-- Python `str.upper()` (ASCII fields in this repository). -/
def toUpperStr (s : String) : String := String.mk (s.data.map Char.toUpper)

/-- `_extract_simulation_params`. -/
def extract_simulation_params (sim : SimJob) : SimParams :=
  { code := String.mk (stripStr sim.code.data)
    delay := sim.delay
    «universe» := sim.«universe»
    truncation := sim.truncation
    region := sim.region
    decay := sim.decay
    neutralization := toUpperStr sim.neutralization
    pasteurization := sim.pasteurization
    nanHandling := sim.nanHandling }

/-- The value written to the `subsharpe` column: either the check's numeric
value or the literal `ERROR` marker. -/
inductive SubSharpeVal
  | err
  | val (v : Rat)
deriving DecidableEq

/-- One entry of `data['is']['checks']`. -/
structure CheckItem where
  name : String
  result : String
  value : Rat
deriving DecidableEq

/-- Accumulator of `_process_checks`' loop. -/
structure CheckSummary where
  passed : Nat
  failed : List String
  weight_check : String
  subsharpe : SubSharpeVal
deriving DecidableEq

/-- One iteration of the `_process_checks` loop. -/
def process_checks_step (acc : CheckSummary) (check : CheckItem) : CheckSummary :=
  let acc1 :=
    if check.result = "PASS" then { acc with passed := acc.passed + 1 }
    else if check.result = "FAIL" then { acc with failed := acc.failed ++ [check.name] }
    else acc
  if check.name = "CONCENTRATED_WEIGHT" then { acc1 with weight_check := check.result }
  else if check.name = "LOW_SUB_UNIVERSE_SHARPE" then
    { acc1 with subsharpe :=
        if check.result = "ERROR" then SubSharpeVal.err else SubSharpeVal.val check.value }
  else acc1

/-- `_process_checks`: counts passed checks, collects failed check names, and
extracts the weight-check result and sub-universe sharpe. -/
def process_checks (checks : List CheckItem) : CheckSummary :=
  checks.foldl process_checks_step
    { passed := 0, failed := [], weight_check := "UNKNOWN", subsharpe := SubSharpeVal.val (-1) }

/-- One row of the run-scoped result CSV (`RESULT_CSV_HEADER` order), also the
dict returned from `_process_simulation` (the `ResultLogEntry`). -/
structure ResultRow where
  idea_id : String
  status : String
  passed_checks : Nat
  failed : String
  delay : Int
  region : String
  neutralization : String
  decay : Int
  truncation : Rat
  sharpe : Rat
  fitness : Rat
  turnover : Rat
  weight : String
  subsharpe : SubSharpeVal
  correlation : Int
  «universe» : String
  link : String
  code : String
  id : String
deriving DecidableEq

/-- `",".join(l)`. -/
def join_comma : List String → String
  | [] => ""
  | [s] => s
  | s :: rest => s ++ "," ++ join_comma rest

/-- Python `round(x, 2)` on the model's rationals (rounding to 2 decimals;
ties at the third decimal do not occur in the claims considered here). -/
def round2 (x : Rat) : Rat := (round (x * 100) : Int) / 100

/-- The base platform URL (`WQSession.PLATFORM_URL`). -/
def PLATFORM_URL : String := "https://platform.worldquantbrain.com"

/-- The `data['is']` metrics and checks used by `_process_results`. -/
structure FetchData where
  sharpe : Rat
  fitness : Rat
  turnover : Rat
  checks : List CheckItem
deriving DecidableEq

/-- Outcome of the result-fetch stage: the transport returned `None` (or the
session is auth-expired), the `try` body raised while parsing/processing, or
the parsed record. -/
inductive FetchOutcome
  | transportFail
  | parseError
  | ok (d : FetchData)
deriving DecidableEq

/-- `_record_failed_simulation`: the failure row — status `failed`, zero
checks and metrics, weight `FAIL`, link `FAILED`, empty remote id. -/
def record_failed_simulation (sim : SimJob) (params : SimParams) : ResultRow :=
  { idea_id := sim.idea_id
    status := "failed"
    passed_checks := 0
    failed := ""
    delay := params.delay
    region := params.region
    neutralization := params.neutralization
    decay := params.decay
    truncation := params.truncation
    sharpe := 0
    fitness := 0
    turnover := 0
    weight := "FAIL"
    subsharpe := SubSharpeVal.val 0
    correlation := -1
    «universe» := params.«universe»
    link := "FAILED"
    code := sim.code
    id := "" }

/-- `_process_results`: on a parsed record, build the `completed` row (and it
is written to the CSV); on a transport failure or an exception inside the
`try`, return `None` with nothing written. -/
def process_results (sim : SimJob) (alpha_link : String) (params : SimParams)
    (fetch : FetchOutcome) : Option ResultRow :=
  match fetch with
  | FetchOutcome.transportFail => none
  | FetchOutcome.parseError => none
  | FetchOutcome.ok d =>
    let cs := process_checks d.checks
    some
      { idea_id := sim.idea_id
        status := "completed"
        passed_checks := cs.passed
        failed := join_comma cs.failed
        delay := params.delay
        region := params.region
        neutralization := params.neutralization
        decay := params.decay
        truncation := params.truncation
        sharpe := d.sharpe
        fitness := d.fitness
        turnover := round2 (100 * d.turnover)
        weight := cs.weight_check
        subsharpe := cs.subsharpe
        correlation := -1
        «universe» := params.«universe»
        link := PLATFORM_URL ++ "/alpha/" ++ alpha_link
        code := sim.code
        id := alpha_link }

/-- Outcome of one poll of the simulation link inside `_monitor_simulation`:
the transport returned `None` / the session is auth-expired; the body carries
`alpha` (done); a `message` without `progress` (remote error); a `progress`
value; or parsing raised. -/
inductive PollOutcome
  | transportFail
  | alphaDone (link : String)
  | errorMessage
  | progress (p : Nat)
  | parseError
deriving DecidableEq

/-- `_monitor_simulation`: each trace element is the clock value at that poll
paired with its outcome.  A failed/expired transport returns `None` before the
timeout check; then any poll observed after more than `timeout` seconds since
`start` returns `None`; otherwise `alpha` ends the loop in success, a remote
error message or a parse error ends it in `None`, and progress polls sleep and
continue. -/
def monitor_simulation (timeout start : Nat) : List (Nat × PollOutcome) → Option String
  | [] => none
  | (t, o) :: rest =>
    match o with
    | PollOutcome.transportFail => none
    | PollOutcome.alphaDone link => if timeout < t - start then none else some link
    | PollOutcome.errorMessage => if timeout < t - start then none else none
    | PollOutcome.progress _ =>
      if timeout < t - start then none else monitor_simulation timeout start rest
    | PollOutcome.parseError => if timeout < t - start then none else none

/-- The environment of one `_process_simulation` run: the session's
`login_expired` flag at entry, the submit outcome (`Location` header or
`None`), the monitoring start time and poll trace, and the fetch outcome. -/
structure SimInput where
  login_expired : Bool
  submitLink : Option String
  monStart : Nat
  polls : List (Nat × PollOutcome)
  fetch : FetchOutcome
deriving DecidableEq

/-- `_process_simulation`: the per-job state machine.  Returns the result dict
(`none` when the job is silently dropped) and the list of rows this job wrote
to the run-scoped result CSV.  An auth-expired session returns before doing
anything; a failed submit or failed/timed-out monitor records the failure row;
a transport failure or exception while processing results writes nothing. -/
def process_simulation (sim : SimJob) (inp : SimInput) :
    Option ResultRow × List ResultRow :=
  if inp.login_expired then (none, [])
  else
    let params := extract_simulation_params sim
    match inp.submitLink with
    | none => (some (record_failed_simulation sim params), [record_failed_simulation sim params])
    | some _ =>
      match monitor_simulation 600 inp.monStart inp.polls with
      | none =>
        (some (record_failed_simulation sim params), [record_failed_simulation sim params])
      | some alpha_link =>
        match process_results sim alpha_link params inp.fetch with
        | none => (none, [])
        | some r => (some r, [r])

/-! ### Concrete pipeline instances -/

/-- A pending job spec (spec Scenario A shape). -/
def demoJob : SimJob :=
  { code := "ts_mean(close,5)", neutralization := "SUBINDUSTRY", decay := 0,
    truncation := 1/20, delay := 1, «universe» := "TOP3000", region := "USA",
    pasteurization := "ON", nanHandling := "OFF", idea_id := "A1" }

/-- A fetched record with two passing checks and one failing weight check. -/
def demoFetch : FetchData :=
  { sharpe := 142/100, fitness := 1, turnover := 3/10,
    checks := [{ name := "LOW_SHARPE", result := "PASS", value := 0 },
               { name := "LOW_FITNESS", result := "PASS", value := 0 },
               { name := "CONCENTRATED_WEIGHT", result := "FAIL", value := 0 }] }

/-- A job dispatched while the session is already auth-expired. -/
def authExpiredInput : SimInput :=
  { login_expired := true, submitLink := none, monStart := 0, polls := [],
    fetch := FetchOutcome.transportFail }

/-- A job whose submit succeeds but whose first poll is observed 601 seconds
after monitoring started (past the 600-second timeout). -/
def timeoutInput : SimInput :=
  { login_expired := false, submitLink := some "sim-loc-1", monStart := 0,
    polls := [(601, PollOutcome.progress 50)], fetch := FetchOutcome.ok demoFetch }

/-- A job whose submission fails (no `Location` obtained). -/
def submitFailInput : SimInput :=
  { login_expired := false, submitLink := none, monStart := 0, polls := [],
    fetch := FetchOutcome.ok demoFetch }

/-- A job that reaches result processing, where the `try` body raises. -/
def fetchErrorInput : SimInput :=
  { login_expired := false, submitLink := some "sim-loc-1", monStart := 0,
    polls := [(30, PollOutcome.alphaDone "alpha-1")], fetch := FetchOutcome.parseError }

/-! ### C1: one `ResultLogEntry` per dispatched job -/

/-- C1 counterexample: a job dispatched to a worker while the session is
auth-expired returns immediately — zero rows are written to the run-scoped
result log for it, so a dispatched JobSpec can yield zero `ResultLogEntry`s. -/
theorem one_entry_per_job_counterexample :
    process_simulation demoJob authExpiredInput = (none, []) ∧
    process_simulation demoJob fetchErrorInput = (none, []) := by
  decide

/-- C1 (amended): every dispatched JobSpec yields at most one
`ResultLogEntry`, and exactly one precisely when `_process_simulation` returns
a result dict: the submit-failure, monitor-failure and successful-processing
paths each write exactly the returned row, but the auth-expired-before-start
path and the result-processing failure/exception paths write zero rows (the
job is silently dropped from the result log). -/
theorem one_entry_per_job_amended :
    ∀ (sim : SimJob) (inp : SimInput),
    (process_simulation sim inp).2.length ≤ 1 ∧
    ((process_simulation sim inp).1 = none ↔ (process_simulation sim inp).2 = []) ∧
    (∀ r, (process_simulation sim inp).1 = some r →
      (process_simulation sim inp).2 = [r]) ∧
    (inp.login_expired = true → (process_simulation sim inp).2 = []) := by
  intro sim inp
  cases hle : inp.login_expired with
  | true => simp [process_simulation, hle]
  | false =>
    simp only [process_simulation, hle, Bool.false_eq_true, if_false]
    cases inp.submitLink with
    | none => simp
    | some link =>
      cases monitor_simulation 600 inp.monStart inp.polls with
      | none => simp
      | some alpha_link =>
        cases hpr : process_results sim alpha_link (extract_simulation_params sim) inp.fetch with
        | none => simp [hpr]
        | some r => simp [hpr]

/-- C1 witness: the amended theorem applied to the auth-expired run — the
hypothesis of its last clause holds and the job writes no rows. -/
theorem one_entry_per_job_amended_witness :
    authExpiredInput.login_expired = true ∧
    (process_simulation demoJob authExpiredInput).2 = [] :=
  ⟨rfl, (one_entry_per_job_amended demoJob authExpiredInput).2.2.2 rfl⟩

/-! ### C5: monitoring timeout -/

theorem monitor_timeout_none (timeout start : Nat) :
    ∀ (ps : List (Nat × PollOutcome)) (t : Nat) (o : PollOutcome)
      (rest : List (Nat × PollOutcome)),
    (∀ p ∈ ps, (∃ k, p.2 = PollOutcome.progress k) ∧ p.1 - start ≤ timeout) →
    timeout < t - start →
    monitor_simulation timeout start (ps ++ (t, o) :: rest) = none := by
  intro ps
  induction ps with
  | nil =>
    intro t o rest hps ht
    cases o <;> simp [monitor_simulation, ht]
  | cons p ps ih =>
    intro t o rest hps ht
    obtain ⟨⟨k, hk⟩, hle⟩ := hps p (List.mem_cons_self p ps)
    obtain ⟨u, po⟩ := p
    simp only at hk
    subst hk
    simp only [List.cons_append, monitor_simulation]
    rw [if_neg (by omega)]
    exact ih t o rest (fun q hq => hps q (List.mem_cons_of_mem _ hq)) ht

/-- C5 counterexample: a job whose first poll is observed 601 s after the
600 s monitoring window produces exactly the row `_record_failed_simulation`
writes — status `failed`, identical to the row of a plain submission failure —
so the timeout terminal state is not recorded as a status distinct from
`FAILED` (no `timeout` status exists in the code). -/
theorem timeout_status_counterexample :
    process_simulation demoJob timeoutInput = process_simulation demoJob submitFailInput ∧
    (process_simulation demoJob timeoutInput).1 =
      some (record_failed_simulation demoJob (extract_simulation_params demoJob)) ∧
    (record_failed_simulation demoJob (extract_simulation_params demoJob)).status
      = "failed" := by
  refine ⟨?_, ?_, rfl⟩ <;> rfl

/-- C5 (amended): a job whose monitoring exceeds the 600 s wall-clock timeout
terminates, and its `ResultLogEntry` has zeroed metrics — but its status is the
same `failed` string used for every other failure; there is no distinct
`TIMEOUT` status. -/
theorem monitor_timeout_failed_row :
    ∀ (sim : SimJob) (link : String) (ps : List (Nat × PollOutcome)) (t : Nat)
      (o : PollOutcome) (rest : List (Nat × PollOutcome)) (fetch : FetchOutcome)
      (start : Nat),
    (∀ p ∈ ps, (∃ k, p.2 = PollOutcome.progress k) ∧ p.1 - start ≤ 600) →
    600 < t - start →
    process_simulation sim
        { login_expired := false, submitLink := some link, monStart := start,
          polls := ps ++ (t, o) :: rest, fetch := fetch } =
      (some (record_failed_simulation sim (extract_simulation_params sim)),
       [record_failed_simulation sim (extract_simulation_params sim)]) ∧
    (record_failed_simulation sim (extract_simulation_params sim)).status = "failed" ∧
    (record_failed_simulation sim (extract_simulation_params sim)).sharpe = 0 ∧
    (record_failed_simulation sim (extract_simulation_params sim)).fitness = 0 ∧
    (record_failed_simulation sim (extract_simulation_params sim)).turnover = 0 ∧
    (record_failed_simulation sim (extract_simulation_params sim)).passed_checks = 0 := by
  intro sim link ps t o rest fetch start hps ht
  refine ⟨?_, rfl, rfl, rfl, rfl, rfl⟩
  have hmon := monitor_timeout_none 600 start ps t o rest hps ht
  simp [process_simulation, hmon]

/-- C5 witness: the amended theorem applied to a concrete run whose single
progress poll arrives 700 s after a start at time 0. -/
theorem monitor_timeout_failed_row_witness :
    (600 < 700 - 0) ∧
    process_simulation demoJob
        { login_expired := false, submitLink := some "sim-loc-1", monStart := 0,
          polls := [] ++ (700, PollOutcome.progress 10) :: [],
          fetch := FetchOutcome.ok demoFetch } =
      (some (record_failed_simulation demoJob (extract_simulation_params demoJob)),
       [record_failed_simulation demoJob (extract_simulation_params demoJob)]) :=
  ⟨by decide,
    (monitor_timeout_failed_row demoJob "sim-loc-1" [] 700 (PollOutcome.progress 10) []
      (FetchOutcome.ok demoFetch) 0 (by simp) (by decide)).1⟩

/-! ## Ledger update (`WQSimulation.update_tracker_with_results`) -/

/-- One row of the tracker CSV (the ledger): the job-spec columns plus the
result columns written back by the updater. -/
structure LedgerRow where
  idea_id : String
  code : String
  neutralization : String
  decay : Int
  truncation : Rat
  delay : Int
  «universe» : String
  region : String
  pasteurization : String
  nanHandling : String
  status : String
  passed_checks : Nat
  failed : String
  sharpe : Rat
  fitness : Rat
  turnover : Rat
  weight_check : String
  subsharpe : SubSharpeVal
  correlation : Int
  link : String
  id : String
deriving DecidableEq

/-- The in-place overwrite of the matched row: exactly the eleven result
columns assigned by `update_tracker_with_results` (`status`, `passed_checks`,
`failed`, `sharpe`, `fitness`, `turnover`, `weight_check`, `subsharpe`,
`correlation`, `link`, `id`), taken from the result dict. -/
def applyResult (row : LedgerRow) (res : ResultRow) : LedgerRow :=
  { row with
    status := res.status
    passed_checks := res.passed_checks
    failed := res.failed
    sharpe := res.sharpe
    fitness := res.fitness
    turnover := res.turnover
    weight_check := res.weight
    subsharpe := res.subsharpe
    correlation := res.correlation
    link := res.link
    id := res.id }

/-- The ledger mutation inside the lock: locate the first row whose `idea_id`
matches the result's (`df.index[df['idea_id'] == idea_id][0]`), overwrite its
result columns in place; with no match the ledger is left unchanged (a warning
is logged). -/
def update_tracker_rows : List LedgerRow → ResultRow → List LedgerRow
  | [], _ => []
  | row :: rest, res =>
    if row.idea_id = res.idea_id then applyResult row res :: rest
    else row :: update_tracker_rows rest res

/-- Whether the bounded-wait (20 s) `FileLock` on the tracker was acquired in
time. -/
inductive LockOutcome
  | acquired
  | timedOut
deriving DecidableEq

/-- `update_tracker_with_results`: acquire the inter-process file lock with a
bounded wait; on timeout the `FileLock` context manager raises (modelled as
`Except.error`), otherwise reload the ledger, update the matching row and
persist. -/
def update_tracker_with_results (lock : LockOutcome) (ledger : List LedgerRow)
    (res : ResultRow) : Except String (List LedgerRow) :=
  match lock with
  | LockOutcome.timedOut => Except.error "filelock.Timeout"
  | LockOutcome.acquired => Except.ok (update_tracker_rows ledger res)

/-- The per-future body of `run_simulation_from_tracker`'s collection loop:
a `None` result dict skips the ledger update; otherwise the update runs and
any exception it raises is caught by the loop's `except Exception` handler and
logged (second component `true`), leaving the ledger unchanged and the run
alive. -/
def handle_completed_future (lock : LockOutcome) (ledger : List LedgerRow)
    (result_row : Option ResultRow) : List LedgerRow × Bool :=
  match result_row with
  | none => (ledger, false)
  | some res =>
    match update_tracker_with_results lock ledger res with
    | Except.ok l => (l, false)
    | Except.error _ => (ledger, true)

/-! ### C7: idempotence of the ledger update -/

theorem applyResult_idem (row : LedgerRow) (res : ResultRow) :
    applyResult (applyResult row res) res = applyResult row res := rfl

theorem applyResult_idea_id (row : LedgerRow) (res : ResultRow) :
    (applyResult row res).idea_id = row.idea_id := rfl

theorem update_tracker_rows_idem_aux (res : ResultRow) :
    ∀ ledger : List LedgerRow,
    update_tracker_rows (update_tracker_rows ledger res) res =
      update_tracker_rows ledger res := by
  intro ledger
  induction ledger with
  | nil => rfl
  | cons row rest ih =>
    by_cases h : row.idea_id = res.idea_id
    · simp only [update_tracker_rows, if_pos h]
      rw [if_pos (by rw [applyResult_idea_id]; exact h), applyResult_idem]
    · simp only [update_tracker_rows, if_neg h]
      rw [ih]

/-- C7: `updateLedger` is idempotent — for a ledger containing a row matching
the result's `idea_id`, applying the update twice with the same `JobResult`
yields the same ledger contents as applying it once. -/
theorem update_tracker_rows_idem :
    ∀ (ledger : List LedgerRow) (res : ResultRow),
    (∃ row ∈ ledger, row.idea_id = res.idea_id) →
    update_tracker_rows (update_tracker_rows ledger res) res =
      update_tracker_rows ledger res := by
  intro ledger res _
  exact update_tracker_rows_idem_aux res ledger

/-- A pending ledger row for idea `A1`. -/
def demoLedgerRow : LedgerRow :=
  { idea_id := "A1", code := "ts_mean(close,5)", neutralization := "SUBINDUSTRY",
    decay := 0, truncation := 1/20, delay := 1, «universe» := "TOP3000",
    region := "USA", pasteurization := "ON", nanHandling := "OFF",
    status := "pending", passed_checks := 0, failed := "", sharpe := 0,
    fitness := 0, turnover := 0, weight_check := "", subsharpe := SubSharpeVal.val 0,
    correlation := 0, link := "", id := "" }

/-- A pending ledger row for a different idea `B2`. -/
def demoOtherRow : LedgerRow :=
  { demoLedgerRow with idea_id := "B2", code := "rank(volume)" }

/-- A completed result dict for idea `A1`. -/
def demoResult : ResultRow :=
  { idea_id := "A1", status := "completed", passed_checks := 2,
    failed := "CONCENTRATED_WEIGHT", delay := 1, region := "USA",
    neutralization := "SUBINDUSTRY", decay := 0, truncation := 1/20,
    sharpe := 142/100, fitness := 1, turnover := 30, weight := "FAIL",
    subsharpe := SubSharpeVal.val 0, correlation := -1, «universe» := "TOP3000",
    link := "https://platform.worldquantbrain.com/alpha/alpha-1",
    code := "ts_mean(close,5)", id := "alpha-1" }

/-- A result dict whose `idea_id` matches no demo ledger row. -/
def demoResultNoMatch : ResultRow := { demoResult with idea_id := "ZZ" }

/-- C7 witness: idempotence instantiated on a two-row ledger containing a row
matching the result's `idea_id`. -/
theorem update_tracker_rows_idem_witness :
    (∃ row ∈ [demoLedgerRow, demoOtherRow], row.idea_id = demoResult.idea_id) ∧
    update_tracker_rows (update_tracker_rows [demoLedgerRow, demoOtherRow] demoResult)
        demoResult =
      update_tracker_rows [demoLedgerRow, demoOtherRow] demoResult :=
  ⟨⟨demoLedgerRow, by simp, rfl⟩,
    update_tracker_rows_idem [demoLedgerRow, demoOtherRow] demoResult
      ⟨demoLedgerRow, by simp, rfl⟩⟩

/-! ### C8: the update writes back only result columns -/

/-- Equality of all non-result columns (identity, code and settings). -/
def non_result_cols_eq (a b : LedgerRow) : Prop :=
  a.idea_id = b.idea_id ∧ a.code = b.code ∧ a.neutralization = b.neutralization ∧
  a.decay = b.decay ∧ a.truncation = b.truncation ∧ a.delay = b.delay ∧
  a.«universe» = b.«universe» ∧ a.region = b.region ∧
  a.pasteurization = b.pasteurization ∧ a.nanHandling = b.nanHandling

theorem non_result_cols_eq_refl (a : LedgerRow) : non_result_cols_eq a a :=
  ⟨rfl, rfl, rfl, rfl, rfl, rfl, rfl, rfl, rfl, rfl⟩

theorem non_result_cols_eq_applyResult (row : LedgerRow) (res : ResultRow) :
    non_result_cols_eq (applyResult row res) row :=
  ⟨rfl, rfl, rfl, rfl, rfl, rfl, rfl, rfl, rfl, rfl⟩

/-- C8: after `update_tracker_rows`, row for row against the old ledger, the
non-result columns (`idea_id`, `code` and the settings) are unchanged
everywhere, and every row whose `idea_id` does not match the result's is
entirely unchanged; only the result columns of the matched row are written. -/
theorem update_tracker_rows_frame :
    ∀ (ledger : List LedgerRow) (res : ResultRow),
    List.Forall₂
      (fun nr old => non_result_cols_eq nr old ∧
        (old.idea_id ≠ res.idea_id → nr = old))
      (update_tracker_rows ledger res) ledger := by
  intro ledger res
  induction ledger with
  | nil => exact List.Forall₂.nil
  | cons row rest ih =>
    by_cases h : row.idea_id = res.idea_id
    · simp only [update_tracker_rows, if_pos h]
      refine List.Forall₂.cons
        ⟨non_result_cols_eq_applyResult row res, fun hne => absurd h hne⟩ ?_
      exact List.forall₂_same.2
        (fun x _ => ⟨non_result_cols_eq_refl x, fun _ => rfl⟩)
    · simp only [update_tracker_rows, if_neg h]
      exact List.Forall₂.cons ⟨non_result_cols_eq_refl row, fun _ => rfl⟩ ih

/-- C8 witness: the frame theorem instantiated on the two-row demo ledger. -/
theorem update_tracker_rows_frame_witness :
    List.Forall₂
      (fun nr old => non_result_cols_eq nr old ∧
        (old.idea_id ≠ demoResult.idea_id → nr = old))
      (update_tracker_rows [demoLedgerRow, demoOtherRow] demoResult)
      [demoLedgerRow, demoOtherRow] :=
  update_tracker_rows_frame [demoLedgerRow, demoOtherRow] demoResult

/-! ### C9: missing row and lock timeout are non-fatal -/

theorem update_tracker_rows_no_match (res : ResultRow) :
    ∀ ledger : List LedgerRow,
    (∀ row ∈ ledger, row.idea_id ≠ res.idea_id) →
    update_tracker_rows ledger res = ledger := by
  intro ledger
  induction ledger with
  | nil => intro _; rfl
  | cons row rest ih =>
    intro h
    simp only [update_tracker_rows,
      if_neg (h row (List.mem_cons_self row rest))]
    rw [ih (fun q hq => h q (List.mem_cons_of_mem _ hq))]

/-- C9: the ledger update never escapes as a fatal error — (1) when no ledger
row matches the result's `idea_id`, the update completes normally (a warning
is logged) leaving the ledger unchanged; (2) when the bounded-wait file lock
times out, the raised `filelock.Timeout` is caught by the run loop's
`except Exception` handler, which logs it and leaves the ledger unchanged, so
the update is skipped and the run continues. -/
theorem update_skip_nonfatal :
    ∀ (ledger : List LedgerRow) (res : ResultRow),
    ((∀ row ∈ ledger, row.idea_id ≠ res.idea_id) →
      update_tracker_with_results LockOutcome.acquired ledger res =
        Except.ok ledger) ∧
    handle_completed_future LockOutcome.timedOut ledger (some res) = (ledger, true) ∧
    ((∀ row ∈ ledger, row.idea_id ≠ res.idea_id) →
      handle_completed_future LockOutcome.acquired ledger (some res) = (ledger, false)) := by
  intro ledger res
  refine ⟨?_, rfl, ?_⟩
  · intro h
    simp only [update_tracker_with_results, update_tracker_rows_no_match res ledger h]
  · intro h
    simp only [handle_completed_future, update_tracker_with_results,
      update_tracker_rows_no_match res ledger h]

/-- C9 witness: the non-fatal-skip theorem applied to the demo ledger and a
result whose `idea_id` matches no row, plus the lock-timeout path. -/
theorem update_skip_nonfatal_witness :
    (∀ row ∈ [demoLedgerRow, demoOtherRow], row.idea_id ≠ demoResultNoMatch.idea_id) ∧
    update_tracker_with_results LockOutcome.acquired [demoLedgerRow, demoOtherRow]
        demoResultNoMatch = Except.ok [demoLedgerRow, demoOtherRow] ∧
    handle_completed_future LockOutcome.timedOut [demoLedgerRow, demoOtherRow]
        (some demoResult) = ([demoLedgerRow, demoOtherRow], true) :=
  ⟨by decide,
    (update_skip_nonfatal [demoLedgerRow, demoOtherRow] demoResultNoMatch).1 (by decide),
    (update_skip_nonfatal [demoLedgerRow, demoOtherRow] demoResult).2.1⟩

/-! ### C10: the submitted expression string -/

theorem dropWhile_insert_quote (p : Char → Bool) (hq : p '"' = false)
    (x y : List Char) (h : List.dropWhile p (x ++ y) = x ++ y) :
    List.dropWhile p (x ++ '"' :: y) = x ++ '"' :: y := by
  cases x with
  | nil => exact List.dropWhile_cons_of_neg (by simp [hq])
  | cons a x' =>
    have hna : ¬ p a = true := by
      intro hpa
      rw [List.cons_append, List.dropWhile_cons_of_pos hpa] at h
      have hsuf := (@List.dropWhile_suffix _ (x' ++ y) p).length_le
      rw [h] at hsuf
      simp at hsuf
    rw [List.cons_append]
    exact List.dropWhile_cons_of_neg hna

theorem stripStr_eq_self_of (s : List Char)
    (h1 : List.dropWhile Char.isWhitespace s = s)
    (h2 : List.dropWhile Char.isWhitespace s.reverse = s.reverse) :
    stripStr s = s := by
  unfold stripStr
  rw [h1, h2, List.reverse_reverse]

theorem stripStr_parts (s : List Char) (h : stripStr s = s) :
    List.dropWhile Char.isWhitespace s = s ∧
    List.dropWhile Char.isWhitespace s.reverse = s.reverse := by
  have hd := @List.dropWhile_suffix _ s Char.isWhitespace
  have he := @List.dropWhile_suffix _
    (List.dropWhile Char.isWhitespace s).reverse Char.isWhitespace
  have hlen : (stripStr s).length = s.length := by rw [h]
  unfold stripStr at hlen
  rw [List.length_reverse] at hlen
  have hle1 := he.length_le
  rw [List.length_reverse] at hle1
  have hle2 := hd.length_le
  have hdlen : (List.dropWhile Char.isWhitespace s).length = s.length := by omega
  have hds : List.dropWhile Char.isWhitespace s = s := hd.eq_of_length hdlen
  refine ⟨hds, ?_⟩
  have helen : (List.dropWhile Char.isWhitespace
      (List.dropWhile Char.isWhitespace s).reverse).length =
      (List.dropWhile Char.isWhitespace s).reverse.length := by
    rw [List.length_reverse]
    omega
  have heq := he.eq_of_length helen
  rw [hds] at heq
  exact heq

theorem stripStr_insert_quote (l r : List Char)
    (h : stripStr (l ++ r) = l ++ r) :
    stripStr (l ++ '"' :: r) = l ++ '"' :: r := by
  obtain ⟨h1, h2⟩ := stripStr_parts _ h
  have hq : Char.isWhitespace '"' = false := by decide
  apply stripStr_eq_self_of
  · exact dropWhile_insert_quote _ hq l r h1
  · rw [List.reverse_append] at h2
    have hrev : (l ++ '"' :: r).reverse = r.reverse ++ '"' :: l.reverse := by
      simp
    rw [hrev]
    exact dropWhile_insert_quote _ hq r.reverse l.reverse h2

/-- C10 counterexample: submission is not invariant under inserting a double
quote into the JobSpec's code.  Inserting `"` at the front of the code
`" x"` (a leading space then `x`) yields `" x"` after processing, while the
original code yields `"x"`: the strip runs before the quote removal, so the
quote shields the leading space from being stripped. -/
theorem submitted_code_insert_counterexample :
    processAlphaCode ([] ++ [' ', 'x']) = ['x'] ∧
    processAlphaCode ([] ++ '"' :: [' ', 'x']) = [' ', 'x'] ∧
    processAlphaCode ([] ++ '"' :: [' ', 'x']) ≠ processAlphaCode ([] ++ [' ', 'x']) := by
  refine ⟨by decide, by decide, by decide⟩

/-- C10 (amended): the submitted code is the JobSpec's code stripped of
leading/trailing whitespace, then with every `"` removed, then the literal
two-character sequences backslash-r and backslash-n removed, in that order
(`processAlphaCode`).  Insertion-invariance fails in general (see the
counterexample), but inserting a double quote anywhere into a code string with
no leading or trailing whitespace (`stripStr` a no-op) leaves the submitted
expression unchanged. -/
theorem submitted_code_quote_insert_invariant :
    ∀ (l r : List Char), stripStr (l ++ r) = l ++ r →
    processAlphaCode (l ++ '"' :: r) = processAlphaCode (l ++ r) := by
  intro l r h
  unfold processAlphaCode
  rw [stripStr_insert_quote l r h, h]
  have hfil : removeChar '"' (l ++ '"' :: r) = removeChar '"' (l ++ r) := by
    simp [removeChar, List.filter_append, List.filter_cons]
  rw [hfil]

/-- C10 witness: inserting a quote into the whitespace-free code `ab` leaves
the submitted string unchanged. -/
theorem submitted_code_quote_insert_invariant_witness :
    stripStr (['a'] ++ ['b']) = ['a'] ++ ['b'] ∧
    processAlphaCode (['a'] ++ '"' :: ['b']) = processAlphaCode (['a'] ++ ['b']) :=
  ⟨by decide, submitted_code_quote_insert_invariant ['a'] ['b'] (by decide)⟩
